import Mathlib

/-!
Verification development for the synthetic mass-photometry data generator
in `example_notebooks/scripts.py`: the closed-form equilibrium resolvers,
the fraction/count allocation, the noise synthesizer, the detection filter
and the per-condition drivers, modelled over real arithmetic with
explicitly passed pseudo-random streams.
-/

namespace PyPhotoMol

open Real

/-- Free monomer concentration for the 2M ⇌ D equilibrium,
`calculate_monomer_concentration` in `scripts.py`:
`(Kd / 4) * (np.sqrt(1 + (8 * total_monomer_conc / Kd)) - 1)`. -/
noncomputable def calculate_monomer_concentration (Kd total_monomer_conc : ℝ) : ℝ :=
  (Kd / 4) * (Real.sqrt (1 + 8 * total_monomer_conc / Kd) - 1)

/-- Dimer concentration as computed in notebook 6's
`generate_mass_photometry_data`:
`(total_monomer_concentration - monomer_conc) / 2`. -/
noncomputable def dimer_conc (Kd total_monomer_concentration : ℝ) : ℝ :=
  (total_monomer_concentration -
    calculate_monomer_concentration Kd total_monomer_concentration) / 2

section HomodimerResolver

/-- `1 < sqrt (1 + 8*Ct/Kd)` for positive inputs. -/
lemma one_lt_sqrt_arg (Kd Ct : ℝ) (hKd : 0 < Kd) (hCt : 0 < Ct) :
    1 < Real.sqrt (1 + 8 * Ct / Kd) := by
  have h8 : 0 < 8 * Ct / Kd := by positivity
  have := Real.sqrt_lt_sqrt (by norm_num : (0:ℝ) ≤ 1) (by linarith : (1:ℝ) < 1 + 8 * Ct / Kd)
  simpa using this

/-- The square of the resolver's square root recovers its argument. -/
lemma sqrt_arg_sq (Kd Ct : ℝ) (hKd : 0 < Kd) (hCt : 0 < Ct) :
    Real.sqrt (1 + 8 * Ct / Kd) ^ 2 = 1 + 8 * Ct / Kd := by
  have h8 : 0 < 8 * Ct / Kd := by positivity
  exact Real.sq_sqrt (by linarith)

/-- For positive inputs the free monomer concentration is positive. -/
lemma monomer_conc_pos (Kd Ct : ℝ) (hKd : 0 < Kd) (hCt : 0 < Ct) :
    0 < calculate_monomer_concentration Kd Ct := by
  have hs1 : 1 < Real.sqrt (1 + 8 * Ct / Kd) := one_lt_sqrt_arg Kd Ct hKd hCt
  unfold calculate_monomer_concentration
  have h4 : 0 < Kd / 4 := by positivity
  nlinarith

/-- For positive inputs the free monomer concentration does not exceed
the total. -/
lemma monomer_conc_le_total (Kd Ct : ℝ) (hKd : 0 < Kd) (hCt : 0 < Ct) :
    calculate_monomer_concentration Kd Ct ≤ Ct := by
  set s := Real.sqrt (1 + 8 * Ct / Kd) with hs_def
  have hs1 : 1 < s := one_lt_sqrt_arg Kd Ct hKd hCt
  have hssq : s ^ 2 = 1 + 8 * Ct / Kd := sqrt_arg_sq Kd Ct hKd hCt
  have hkey : Kd * s ^ 2 = Kd + 8 * Ct := by
    have h : Kd * s ^ 2 = Kd * (1 + 8 * Ct / Kd) := by rw [hssq]
    rw [h]; field_simp
  unfold calculate_monomer_concentration
  rw [← hs_def]
  nlinarith [sq_nonneg (s - 1), mul_nonneg hKd.le (sq_nonneg (s - 1))]

/-- For positive inputs the derived dimer concentration is nonnegative. -/
lemma dimer_conc_nonneg (Kd Ct : ℝ) (hKd : 0 < Kd) (hCt : 0 < Ct) :
    0 ≤ dimer_conc Kd Ct := by
  have := monomer_conc_le_total Kd Ct hKd hCt
  unfold dimer_conc
  linarith

/-- The homodimer mass balance `M + 2*D = Ct` holds exactly in real
arithmetic, by construction of `D`. -/
lemma homodimer_mass_balance (Kd Ct : ℝ) :
    Ct = calculate_monomer_concentration Kd Ct + 2 * dimer_conc Kd Ct := by
  unfold dimer_conc; ring

/-- C1: for every `Kd > 0` and `Ct > 0`, the homodimer resolver's free
monomer concentration `M = (Kd/4)*(sqrt(1 + 8*Ct/Kd) - 1)` and dimer
concentration `D = (Ct - M)/2` satisfy `0 < M ≤ Ct`, `D ≥ 0`, and
`|Ct - (M + 2*D)| ≤ 1e-9 * Ct`. -/
theorem homodimer_resolver_correct (Kd Ct : ℝ) (hKd : 0 < Kd) (hCt : 0 < Ct) :
    0 < calculate_monomer_concentration Kd Ct ∧
    calculate_monomer_concentration Kd Ct ≤ Ct ∧
    0 ≤ dimer_conc Kd Ct ∧
    |Ct - (calculate_monomer_concentration Kd Ct + 2 * dimer_conc Kd Ct)| ≤ 1e-9 * Ct := by
  refine ⟨monomer_conc_pos Kd Ct hKd hCt, monomer_conc_le_total Kd Ct hKd hCt,
    dimer_conc_nonneg Kd Ct hKd hCt, ?_⟩
  have h : Ct - (calculate_monomer_concentration Kd Ct + 2 * dimer_conc Kd Ct) = 0 := by
    unfold dimer_conc; ring
  rw [h, abs_zero]
  positivity

/-- Witness for C1 at `Kd = 8`, `Ct = 8`. -/
theorem homodimer_resolver_correct_witness :
    (0:ℝ) < 8 ∧
    (0 < calculate_monomer_concentration 8 8 ∧
     calculate_monomer_concentration 8 8 ≤ 8 ∧
     0 ≤ dimer_conc 8 8 ∧
     |8 - (calculate_monomer_concentration 8 8 + 2 * dimer_conc 8 8)| ≤ 1e-9 * 8) :=
  ⟨by norm_num, homodimer_resolver_correct 8 8 (by norm_num) (by norm_num)⟩

end HomodimerResolver

/-- Complex concentration for the A + B ⇌ AB equilibrium,
`calculate_complex_concentration` in `scripts.py`:
`0.5 * ((Kd + At + Bt) - np.sqrt((Kd + At + Bt)**2 - 4*At*Bt))`. -/
noncomputable def calculate_complex_concentration (Kd total_A_conc total_B_conc : ℝ) : ℝ :=
  0.5 * ((Kd + total_A_conc + total_B_conc) -
    Real.sqrt ((Kd + total_A_conc + total_B_conc) ^ 2 - 4 * total_A_conc * total_B_conc))

section HeterocomplexResolver

/-- The discriminant of the quadratic binding formula is nonnegative. -/
lemma hetero_disc_nonneg (Kd At Bt : ℝ) (hKd : 0 ≤ Kd) (hA : 0 ≤ At) (hB : 0 ≤ Bt) :
    0 ≤ (Kd + At + Bt) ^ 2 - 4 * At * Bt := by
  nlinarith [sq_nonneg (At - Bt), sq_nonneg (Kd + At + Bt), mul_nonneg hA hB,
    mul_nonneg hKd (add_nonneg hA hB), sq_nonneg Kd]

/-- The quadratic-binding complex concentration is nonnegative. -/
lemma complex_conc_nonneg (Kd At Bt : ℝ) (hKd : 0 < Kd) (hA : 0 < At) (hB : 0 < Bt) :
    0 ≤ calculate_complex_concentration Kd At Bt := by
  unfold calculate_complex_concentration
  have hsum : 0 ≤ Kd + At + Bt := by linarith
  have harg : (Kd + At + Bt) ^ 2 - 4 * At * Bt ≤ (Kd + At + Bt) ^ 2 := by
    nlinarith [mul_pos hA hB]
  have := Real.sqrt_le_sqrt harg
  rw [Real.sqrt_sq hsum] at this
  linarith

/-- The quadratic-binding complex concentration is at most `At`. -/
lemma complex_conc_le_A (Kd At Bt : ℝ) (hKd : 0 < Kd) (hA : 0 < At) (hB : 0 < Bt) :
    calculate_complex_concentration Kd At Bt ≤ At := by
  unfold calculate_complex_concentration
  have hd : 0 ≤ (Kd + At + Bt) ^ 2 - 4 * At * Bt :=
    hetero_disc_nonneg Kd At Bt hKd.le hA.le hB.le
  have hkb : (Kd + Bt - At) ≤ Real.sqrt ((Kd + At + Bt) ^ 2 - 4 * At * Bt) := by
    rcases le_or_lt (Kd + Bt - At) 0 with h | h
    · exact h.trans (Real.sqrt_nonneg _)
    · have hsq : (Kd + Bt - At) ^ 2 ≤ (Kd + At + Bt) ^ 2 - 4 * At * Bt := by
        nlinarith [mul_pos hA hKd]
      calc Kd + Bt - At = Real.sqrt ((Kd + Bt - At) ^ 2) := (Real.sqrt_sq h.le).symm
        _ ≤ Real.sqrt ((Kd + At + Bt) ^ 2 - 4 * At * Bt) := Real.sqrt_le_sqrt hsq
  linarith

/-- The quadratic binding formula is symmetric in the two totals. -/
lemma complex_conc_comm (Kd At Bt : ℝ) :
    calculate_complex_concentration Kd At Bt = calculate_complex_concentration Kd Bt At := by
  unfold calculate_complex_concentration
  ring_nf

/-- C2: for every `Kd > 0`, `At > 0`, `Bt > 0` the heterocomplex resolver's
`AB = 0.5*((Kd+At+Bt) - sqrt((Kd+At+Bt)^2 - 4*At*Bt))` satisfies
`0 ≤ AB ≤ min(At, Bt)`, and with `A_free = At - AB`, `B_free = Bt - AB`
the fraction sums `A_free/At + AB/At` and `B_free/Bt + AB/Bt` each equal 1
within combined relative+absolute tolerance `1e-9`. -/
theorem heterocomplex_resolver_correct (Kd At Bt : ℝ)
    (hKd : 0 < Kd) (hA : 0 < At) (hB : 0 < Bt) :
    0 ≤ calculate_complex_concentration Kd At Bt ∧
    calculate_complex_concentration Kd At Bt ≤ min At Bt ∧
    |((At - calculate_complex_concentration Kd At Bt) / At +
       calculate_complex_concentration Kd At Bt / At) - 1| ≤ 1e-9 + 1e-9 * |1| ∧
    |((Bt - calculate_complex_concentration Kd At Bt) / Bt +
       calculate_complex_concentration Kd At Bt / Bt) - 1| ≤ 1e-9 + 1e-9 * |1| := by
  refine ⟨complex_conc_nonneg Kd At Bt hKd hA hB, ?_, ?_, ?_⟩
  · refine le_min (complex_conc_le_A Kd At Bt hKd hA hB) ?_
    rw [complex_conc_comm]
    exact complex_conc_le_A Kd Bt At hKd hB hA
  · have : (At - calculate_complex_concentration Kd At Bt) / At +
        calculate_complex_concentration Kd At Bt / At = 1 := by
      field_simp
    rw [this]; simp; norm_num
  · have : (Bt - calculate_complex_concentration Kd At Bt) / Bt +
        calculate_complex_concentration Kd At Bt / Bt = 1 := by
      field_simp
    rw [this]; simp; norm_num

/-- Witness for C2 at `Kd = 1`, `At = 2`, `Bt = 3`. -/
theorem heterocomplex_resolver_correct_witness :
    (0:ℝ) < 1 ∧
    (0 ≤ calculate_complex_concentration 1 2 3 ∧
     calculate_complex_concentration 1 2 3 ≤ min 2 3 ∧
     |((2 - calculate_complex_concentration 1 2 3) / 2 +
        calculate_complex_concentration 1 2 3 / 2) - 1| ≤ 1e-9 + 1e-9 * |1| ∧
     |((3 - calculate_complex_concentration 1 2 3) / 3 +
        calculate_complex_concentration 1 2 3 / 3) - 1| ≤ 1e-9 + 1e-9 * |1|) :=
  ⟨by norm_num, heterocomplex_resolver_correct 1 2 3 (by norm_num) (by norm_num) (by norm_num)⟩

end HeterocomplexResolver

/-- The ways a run of the scripts can raise: numpy's `ValueError` for a
negative sample size, and Python's `AssertionError` from a failed
`assert`. -/
inductive PyError
  | valueError
  | assertionError
deriving DecidableEq

/-- numpy's `np.isclose` at its default tolerances `rtol = 1e-5`,
`atol = 1e-8`: `|a - b| <= atol + rtol * |b|`, as used by the
`assert np.isclose(...)` checks in `scripts.py`. -/
def np_isclose (a b : ℝ) : Prop := |a - b| ≤ 1e-8 + 1e-5 * |b|

/-- Python's `int()` applied to a float: truncation toward zero. -/
noncomputable def float_int (x : ℝ) : ℤ := if 0 ≤ x then ⌊x⌋ else ⌈x⌉

/-- The array `np.random.normal(mean, std, n)` returns for a nonnegative
size `n`, with the standard-normal stream modelled by `g`: sample `i` is
`mean + std * g i`. -/
def normal_samples (mean std : ℝ) (n : ℕ) (g : ℕ → ℝ) : List ℝ :=
  (List.range n).map fun i => mean + std * g i

/-- `simulate_mass_photometry_counts` in `scripts.py` (identical helper in
both notebooks) wraps `np.random.normal(mean, std, n)`: numpy rejects a
negative `size` argument with a `ValueError` and otherwise returns an
array of exactly `n` samples. -/
def simulate_mass_photometry_counts (mean std : ℝ) (n : ℤ) (g : ℕ → ℝ) :
    Except PyError (List ℝ) :=
  if n < 0 then .error .valueError
  else .ok (normal_samples mean std n.toNat g)

/-- Model of `np.random.shuffle` (Fisher–Yates): the stream `pick`
supplies raw nonnegative integers starting at position `k`; at each step
the element at index `pick k % length` of the remainder is moved to the
front. Every stream of picks yields a permutation of the input. -/
def shuffle (pick : ℕ → ℕ) : ℕ → List ℝ → List ℝ
  | _, [] => []
  | k, x :: xs =>
    have hj : pick k % (x :: xs).length < (x :: xs).length :=
      Nat.mod_lt _ (Nat.succ_pos _)
    (x :: xs).get ⟨pick k % (x :: xs).length, hj⟩ ::
      shuffle pick (k + 1) ((x :: xs).eraseIdx (pick k % (x :: xs).length))
termination_by _ l => l.length
decreasing_by
  have := List.length_eraseIdx_add_one hj
  omega

/-- Moving the element at a valid index to the front is a permutation. -/
lemma perm_get_cons_eraseIdx (l : List ℝ) (j : ℕ) (hj : j < l.length) :
    List.Perm (l.get ⟨j, hj⟩ :: l.eraseIdx j) l := by
  conv_rhs => rw [← List.take_append_drop j l, List.drop_eq_getElem_cons hj]
  rw [List.eraseIdx_eq_take_drop_succ]
  have hg : l.get ⟨j, hj⟩ = l[j] := rfl
  rw [hg]
  exact List.perm_middle.symm

/-- Shuffling a list of length at most `n` permutes it. -/
lemma shuffle_perm_aux (pick : ℕ → ℕ) :
    ∀ (n k : ℕ) (l : List ℝ), l.length ≤ n → List.Perm (shuffle pick k l) l := by
  intro n
  induction n with
  | zero =>
    intro k l hl
    cases l with
    | nil => rw [shuffle]
    | cons x xs => simp at hl
  | succ n ih =>
    intro k l hl
    cases l with
    | nil => rw [shuffle]
    | cons x xs =>
      rw [shuffle]
      have hj : pick k % (x :: xs).length < (x :: xs).length :=
        Nat.mod_lt _ (Nat.succ_pos _)
      have hlen : ((x :: xs).eraseIdx (pick k % (x :: xs).length)).length ≤ n := by
        have h1 := List.length_eraseIdx_add_one hj
        simp only [List.length_cons] at hl h1 ⊢
        omega
      exact ((ih (k + 1) _ hlen).cons _).trans (perm_get_cons_eraseIdx _ _ hj)

/-- Shuffling any list with any pick stream permutes it. -/
lemma shuffle_perm (pick : ℕ → ℕ) (k : ℕ) (l : List ℝ) :
    List.Perm (shuffle pick k l) l :=
  shuffle_perm_aux pick l.length k l le_rfl

/-- The boolean-mask filter `samples[samples >= detection_limit]` used in
notebook 7: keeps exactly the values at or above the detection limit, in
order. -/
noncomputable def detection_filter (detection_limit : ℝ) (samples : List ℝ) : List ℝ :=
  samples.filter fun x => decide (detection_limit ≤ x)

open Classical in
/-- Notebook 6's `generate_mass_photometry_data` (homodimer pipeline):
resolve the equilibrium, run the two `assert`s (an exact `==` mass-balance
check and an `np.isclose` fraction-sum check, a failed `assert` raising
`AssertionError`), allocate `int()`-truncated counts from the fixed 1800
budget, draw Gaussian samples for monomer and dimer, concatenate and
shuffle. `gM`/`gD`/`pick` are this condition's segments of the global
pseudo-random stream. -/
noncomputable def generate_mass_photometry_data_6
    (total_monomer_concentration Kd monomer_mass : ℝ)
    (gM gD : ℕ → ℝ) (pick : ℕ → ℕ) : Except PyError (List ℝ) :=
  let monomer_conc := calculate_monomer_concentration Kd total_monomer_concentration
  let dimer_conc := (total_monomer_concentration - monomer_conc) / 2
  if total_monomer_concentration = monomer_conc + 2 * dimer_conc then
    let monomer_fraction := monomer_conc / total_monomer_concentration
    let dimer_fraction := dimer_conc * 2 / total_monomer_concentration
    if np_isclose (monomer_fraction + dimer_fraction) 1 then
      let dimer_mass := 2 * monomer_mass
      let monomer_std := 0.16 * monomer_mass
      let dimer_std := 0.16 * dimer_mass
      let monomer_counts := 1800 * monomer_conc / (monomer_conc + dimer_conc)
      let dimer_counts := 1800 * dimer_conc / (monomer_conc + dimer_conc)
      do
        let monomer_counts_i ← simulate_mass_photometry_counts monomer_mass monomer_std
          (float_int monomer_counts) gM
        let dimer_counts_i ← simulate_mass_photometry_counts dimer_mass dimer_std
          (float_int dimer_counts) gD
        return shuffle pick 0 (monomer_counts_i ++ dimer_counts_i)
    else .error .assertionError
  else .error .assertionError

open Classical in
/-- Notebook 7's `generate_mass_photometry_data` (heterocomplex pipeline):
resolve the equilibrium, run the three `np.isclose` `assert`s, allocate
`int()`-truncated counts from the fixed 3200 budget, draw Gaussian samples
for A, AB and B, filter each species at the detection limit, concatenate
in the source's `[A, B, AB]` order and shuffle. -/
noncomputable def generate_mass_photometry_data_7
    (A_conc B_conc Kd mass_A mass_B detection_limit : ℝ)
    (gA gAB gB : ℕ → ℝ) (pick : ℕ → ℕ) : Except PyError (List ℝ) :=
  let complex_conc := calculate_complex_concentration Kd A_conc B_conc
  let A_free := A_conc - complex_conc
  let B_free := B_conc - complex_conc
  let free_A_fraction := A_free / (A_free + complex_conc)
  let bound_A_fraction := complex_conc / A_conc
  let free_B_fraction := B_free / B_conc
  let bound_B_fraction := complex_conc / B_conc
  if np_isclose (A_free + complex_conc) A_conc then
    if np_isclose (free_A_fraction + bound_A_fraction) 1 then
      if np_isclose (free_B_fraction + bound_B_fraction) 1 then
        let A_counts := 3200 * A_free / (A_free + complex_conc + B_free)
        let AB_counts := 3200 * complex_conc / (A_free + complex_conc + B_free)
        let B_counts := 3200 * B_free / (A_free + complex_conc + B_free)
        let std_factor := 0.08
        do
          let A_counts_i ← simulate_mass_photometry_counts mass_A (std_factor * mass_A)
            (float_int A_counts) gA
          let AB_counts_i ← simulate_mass_photometry_counts (mass_A + mass_B)
            (std_factor * (mass_A + mass_B)) (float_int AB_counts) gAB
          let B_counts_i ← simulate_mass_photometry_counts mass_B (std_factor * mass_B)
            (float_int B_counts) gB
          let A_kept := detection_filter detection_limit A_counts_i
          let AB_kept := detection_filter detection_limit AB_counts_i
          let B_kept := detection_filter detection_limit B_counts_i
          return shuffle pick 0 (A_kept ++ B_kept ++ AB_kept)
      else .error .assertionError
    else .error .assertionError
  else .error .assertionError

/-- Notebook 6's condition driver `create_notebook_6_files`: nominal
concentrations in nM are converted to Molar (`× 1e-9`) and perturbed by
the per-condition drawn error factor; the emitted label is the nominal
value (rendered by the source as the string `f"{conc_nM}nM"`), while the
equilibrium computation receives the perturbed concentration. Streams are
indexed per condition. -/
noncomputable def create_notebook_6_files
    (Kdim monomer_mass : ℝ) (concentrations_nM : List ℚ)
    (error_factor : ℕ → ℝ) (gM gD : ℕ → ℕ → ℝ) (pick : ℕ → ℕ → ℕ) :
    List (ℚ × Except PyError (List ℝ)) :=
  concentrations_nM.enum.map fun p =>
    (p.2, generate_mass_photometry_data_6 ((p.2 : ℝ) * 1e-9 * error_factor p.1)
      Kdim monomer_mass (gM p.1) (gD p.1) (pick p.1))

/-- Notebook 7's condition driver `create_notebook_7_files`: the single
±2% error factor for the A concentration is drawn once before the
condition loop (`error_factor_A`), each B concentration is converted to
Molar and perturbed with its own drawn factor, and the emitted label is
the nominal B value (rendered by the source as `f"B_{B_conc_nM:.3f}nM"`). -/
noncomputable def create_notebook_7_files
    (mass_A mass_B Kd A_concentration_molar : ℝ)
    (B_concentrations_nM : List ℚ) (detection_limit : ℝ)
    (error_factor : ℕ → ℝ) (error_factor_A : ℝ)
    (gA gAB gB : ℕ → ℕ → ℝ) (pick : ℕ → ℕ → ℕ) :
    List (ℚ × Except PyError (List ℝ)) :=
  let A_conc := A_concentration_molar * error_factor_A
  B_concentrations_nM.enum.map fun p =>
    (p.2, generate_mass_photometry_data_7 A_conc ((p.2 : ℝ) * 1e-9 * error_factor p.1)
      Kd mass_A mass_B detection_limit (gA p.1) (gAB p.1) (gB p.1) (pick p.1))

/-- `np.isclose` is reflexive. -/
lemma np_isclose_refl (a : ℝ) : np_isclose a a := by
  unfold np_isclose
  simp only [sub_self, abs_zero]
  positivity

/-- `np.random.normal` succeeds on a nonnegative size. -/
lemma simulate_ok (mean std : ℝ) (n : ℤ) (g : ℕ → ℝ) (h : 0 ≤ n) :
    simulate_mass_photometry_counts mean std n g =
      .ok (normal_samples mean std n.toNat g) := by
  unfold simulate_mass_photometry_counts
  rw [if_neg (not_lt.2 h)]

/-- Python `int()` on a nonnegative float is the floor. -/
lemma float_int_of_nonneg (x : ℝ) (h : 0 ≤ x) : float_int x = ⌊x⌋ := by
  unfold float_int
  rw [if_pos h]

/-- Python `int()` of a nonnegative float is nonnegative. -/
lemma float_int_nonneg (x : ℝ) (h : 0 ≤ x) : 0 ≤ float_int x := by
  rw [float_int_of_nonneg x h]
  exact Int.floor_nonneg.2 h

/-- For positive inputs notebook 6's generator takes the success path:
both asserts pass, both draw sizes are nonnegative, and the result is the
shuffled concatenation of the monomer and dimer samples. -/
lemma generate6_ok (Ct Kd mm : ℝ) (hCt : 0 < Ct) (hKd : 0 < Kd)
    (gM gD : ℕ → ℝ) (pick : ℕ → ℕ) :
    generate_mass_photometry_data_6 Ct Kd mm gM gD pick =
      .ok (shuffle pick 0
        (normal_samples mm (0.16 * mm)
          (float_int (1800 * calculate_monomer_concentration Kd Ct /
            (calculate_monomer_concentration Kd Ct +
              (Ct - calculate_monomer_concentration Kd Ct) / 2))).toNat gM ++
         normal_samples (2 * mm) (0.16 * (2 * mm))
          (float_int (1800 * ((Ct - calculate_monomer_concentration Kd Ct) / 2) /
            (calculate_monomer_concentration Kd Ct +
              (Ct - calculate_monomer_concentration Kd Ct) / 2))).toNat gD)) := by
  have hM := monomer_conc_pos Kd Ct hKd hCt
  have hMle := monomer_conc_le_total Kd Ct hKd hCt
  have hD : 0 ≤ (Ct - calculate_monomer_concentration Kd Ct) / 2 := by linarith
  have hMD : 0 < calculate_monomer_concentration Kd Ct +
      (Ct - calculate_monomer_concentration Kd Ct) / 2 := by linarith
  have hbal : Ct = calculate_monomer_concentration Kd Ct +
      2 * ((Ct - calculate_monomer_concentration Kd Ct) / 2) := by ring
  have hfrac : np_isclose (calculate_monomer_concentration Kd Ct / Ct +
      (Ct - calculate_monomer_concentration Kd Ct) / 2 * 2 / Ct) 1 := by
    have h : calculate_monomer_concentration Kd Ct / Ct +
        (Ct - calculate_monomer_concentration Kd Ct) / 2 * 2 / Ct = 1 := by
      field_simp
    rw [h]
    exact np_isclose_refl 1
  have hc1 : (0:ℝ) ≤ 1800 * calculate_monomer_concentration Kd Ct /
      (calculate_monomer_concentration Kd Ct +
        (Ct - calculate_monomer_concentration Kd Ct) / 2) :=
    div_nonneg (by linarith) hMD.le
  have hc2 : (0:ℝ) ≤ 1800 * ((Ct - calculate_monomer_concentration Kd Ct) / 2) /
      (calculate_monomer_concentration Kd Ct +
        (Ct - calculate_monomer_concentration Kd Ct) / 2) :=
    div_nonneg (by linarith) hMD.le
  simp only [generate_mass_photometry_data_6]
  rw [if_pos hbal, if_pos hfrac,
    simulate_ok _ _ _ _ (float_int_nonneg _ hc1),
    simulate_ok _ _ _ _ (float_int_nonneg _ hc2)]
  rfl

/-- C3: for every valid input `Ct > 0`, `Kd > 0` the homodimer
mass-balance check `Ct == M + 2*D` holds (exactly, hence also within
`1e-9` relative tolerance), and notebook 6's generator — whose `assert`
raises `AssertionError` when the check is violated — never takes the
failure branch: it returns a successful result. -/
theorem homodimer_mass_balance_check_passes (Ct Kd mm : ℝ)
    (hCt : 0 < Ct) (hKd : 0 < Kd) (gM gD : ℕ → ℝ) (pick : ℕ → ℕ) :
    (Ct = calculate_monomer_concentration Kd Ct + 2 * dimer_conc Kd Ct) ∧
    |Ct - (calculate_monomer_concentration Kd Ct + 2 * dimer_conc Kd Ct)| ≤ 1e-9 * Ct ∧
    ∃ l, generate_mass_photometry_data_6 Ct Kd mm gM gD pick = .ok l := by
  refine ⟨homodimer_mass_balance Kd Ct, ?_, ⟨_, generate6_ok Ct Kd mm hCt hKd gM gD pick⟩⟩
  have h : Ct - (calculate_monomer_concentration Kd Ct + 2 * dimer_conc Kd Ct) = 0 := by
    unfold dimer_conc; ring
  rw [h, abs_zero]
  positivity

/-- Witness for C3 at `Ct = 8`, `Kd = 8`, monomer mass 80 and the
all-zero streams. -/
theorem homodimer_mass_balance_check_passes_witness :
    (0:ℝ) < 8 ∧
    ((8:ℝ) = calculate_monomer_concentration 8 8 + 2 * dimer_conc 8 8) ∧
    |8 - (calculate_monomer_concentration 8 8 + 2 * dimer_conc 8 8)| ≤ 1e-9 * 8 ∧
    ∃ l, generate_mass_photometry_data_6 8 8 80 (fun _ => 0) (fun _ => 0) (fun _ => 0)
      = .ok l :=
  ⟨by norm_num,
   homodimer_mass_balance_check_passes 8 8 80 (by norm_num) (by norm_num)
     (fun _ => 0) (fun _ => 0) (fun _ => 0)⟩

/-- Notebook 6's count allocation,
`monomer_counts = total_counts * monomer_conc / (monomer_conc + dimer_conc)`
with `total_counts = 1800`. -/
noncomputable def monomer_counts (Kd Ct : ℝ) : ℝ :=
  1800 * calculate_monomer_concentration Kd Ct /
    (calculate_monomer_concentration Kd Ct + dimer_conc Kd Ct)

/-- Notebook 6's count allocation,
`dimer_counts = total_counts * dimer_conc / (monomer_conc + dimer_conc)`. -/
noncomputable def dimer_counts (Kd Ct : ℝ) : ℝ :=
  1800 * dimer_conc Kd Ct /
    (calculate_monomer_concentration Kd Ct + dimer_conc Kd Ct)

/-- Notebook 7's `A_free = A_conc - complex_conc`. -/
noncomputable def A_free (Kd At Bt : ℝ) : ℝ :=
  At - calculate_complex_concentration Kd At Bt

/-- Notebook 7's `B_free = B_conc - complex_conc`. -/
noncomputable def B_free (Kd At Bt : ℝ) : ℝ :=
  Bt - calculate_complex_concentration Kd At Bt

/-- Notebook 7's count allocation,
`A_counts = total_counts * A_free / (A_free + complex_conc + B_free)` with
`total_counts = 3200`. -/
noncomputable def A_counts (Kd At Bt : ℝ) : ℝ :=
  3200 * A_free Kd At Bt /
    (A_free Kd At Bt + calculate_complex_concentration Kd At Bt + B_free Kd At Bt)

/-- Notebook 7's count allocation,
`AB_counts = total_counts * complex_conc / (A_free + complex_conc + B_free)`. -/
noncomputable def AB_counts (Kd At Bt : ℝ) : ℝ :=
  3200 * calculate_complex_concentration Kd At Bt /
    (A_free Kd At Bt + calculate_complex_concentration Kd At Bt + B_free Kd At Bt)

/-- Notebook 7's count allocation,
`B_counts = total_counts * B_free / (A_free + complex_conc + B_free)`. -/
noncomputable def B_counts (Kd At Bt : ℝ) : ℝ :=
  3200 * B_free Kd At Bt /
    (A_free Kd At Bt + calculate_complex_concentration Kd At Bt + B_free Kd At Bt)

/-- The quadratic-binding complex concentration is at most `Bt`. -/
lemma complex_conc_le_B (Kd At Bt : ℝ) (hKd : 0 < Kd) (hA : 0 < At) (hB : 0 < Bt) :
    calculate_complex_concentration Kd At Bt ≤ Bt := by
  rw [complex_conc_comm]
  exact complex_conc_le_A Kd Bt At hKd hB hA

/-- Two nonnegative reals summing to `b` have `⌊x⌋ + ⌊y⌋` within 2 of `b`
(as integers, with `b` an integer). -/
lemma floor_pair_bound (x y : ℝ) (b : ℤ) (hsum : x + y = (b : ℝ)) :
    |⌊x⌋ + ⌊y⌋ - b| ≤ 2 := by
  have hle : ((⌊x⌋ + ⌊y⌋ : ℤ) : ℝ) ≤ (b : ℝ) := by
    push_cast
    have := Int.floor_le x
    have := Int.floor_le y
    linarith
  have hgt : ((b : ℝ) - 2 : ℝ) < ((⌊x⌋ + ⌊y⌋ : ℤ) : ℝ) := by
    push_cast
    have := Int.sub_one_lt_floor x
    have := Int.sub_one_lt_floor y
    linarith
  have h1 : (⌊x⌋ + ⌊y⌋ : ℤ) ≤ b := by exact_mod_cast hle
  have h2 : b - 2 < (⌊x⌋ + ⌊y⌋ : ℤ) := by exact_mod_cast hgt
  rw [abs_le]
  omega

/-- Three nonnegative reals summing to `b` have the floors' sum within 3
of `b`. -/
lemma floor_triple_bound (x y z : ℝ) (b : ℤ) (hsum : x + y + z = (b : ℝ)) :
    |⌊x⌋ + ⌊y⌋ + ⌊z⌋ - b| ≤ 3 := by
  have hle : ((⌊x⌋ + ⌊y⌋ + ⌊z⌋ : ℤ) : ℝ) ≤ (b : ℝ) := by
    push_cast
    have := Int.floor_le x
    have := Int.floor_le y
    have := Int.floor_le z
    linarith
  have hgt : ((b : ℝ) - 3 : ℝ) < ((⌊x⌋ + ⌊y⌋ + ⌊z⌋ : ℤ) : ℝ) := by
    push_cast
    have := Int.sub_one_lt_floor x
    have := Int.sub_one_lt_floor y
    have := Int.sub_one_lt_floor z
    linarith
  have h1 : (⌊x⌋ + ⌊y⌋ + ⌊z⌋ : ℤ) ≤ b := by exact_mod_cast hle
  have h2 : b - 3 < (⌊x⌋ + ⌊y⌋ + ⌊z⌋ : ℤ) := by exact_mod_cast hgt
  rw [abs_le]
  omega

/-- C4: each species' particle count is its fraction of the actually
competing concentrations times the fixed budget (1800 homodimer, 3200
heterocomplex), truncated toward zero, and the per-condition counts sum
to within the number of species of the budget. -/
theorem count_allocator_correct (Kd Ct Kd2 At Bt : ℝ)
    (hKd : 0 < Kd) (hCt : 0 < Ct) (hKd2 : 0 < Kd2) (hA : 0 < At) (hB : 0 < Bt) :
    (float_int (monomer_counts Kd Ct) =
      ⌊calculate_monomer_concentration Kd Ct /
        (calculate_monomer_concentration Kd Ct + dimer_conc Kd Ct) * 1800⌋) ∧
    (float_int (dimer_counts Kd Ct) =
      ⌊dimer_conc Kd Ct /
        (calculate_monomer_concentration Kd Ct + dimer_conc Kd Ct) * 1800⌋) ∧
    |float_int (monomer_counts Kd Ct) + float_int (dimer_counts Kd Ct) - 1800| ≤ 2 ∧
    (float_int (A_counts Kd2 At Bt) =
      ⌊A_free Kd2 At Bt / (A_free Kd2 At Bt +
        calculate_complex_concentration Kd2 At Bt + B_free Kd2 At Bt) * 3200⌋) ∧
    (float_int (AB_counts Kd2 At Bt) =
      ⌊calculate_complex_concentration Kd2 At Bt / (A_free Kd2 At Bt +
        calculate_complex_concentration Kd2 At Bt + B_free Kd2 At Bt) * 3200⌋) ∧
    (float_int (B_counts Kd2 At Bt) =
      ⌊B_free Kd2 At Bt / (A_free Kd2 At Bt +
        calculate_complex_concentration Kd2 At Bt + B_free Kd2 At Bt) * 3200⌋) ∧
    |float_int (A_counts Kd2 At Bt) + float_int (AB_counts Kd2 At Bt) +
      float_int (B_counts Kd2 At Bt) - 3200| ≤ 3 := by
  have hM := monomer_conc_pos Kd Ct hKd hCt
  have hD := dimer_conc_nonneg Kd Ct hKd hCt
  have hMD : 0 < calculate_monomer_concentration Kd Ct + dimer_conc Kd Ct := by linarith
  have hmc : 0 ≤ monomer_counts Kd Ct := by
    unfold monomer_counts
    exact div_nonneg (by linarith) hMD.le
  have hdc : 0 ≤ dimer_counts Kd Ct := by
    unfold dimer_counts
    exact div_nonneg (by linarith) hMD.le
  have hAB0 := complex_conc_nonneg Kd2 At Bt hKd2 hA hB
  have hABa := complex_conc_le_A Kd2 At Bt hKd2 hA hB
  have hABb := complex_conc_le_B Kd2 At Bt hKd2 hA hB
  have hAf : 0 ≤ A_free Kd2 At Bt := by unfold A_free; linarith
  have hBf : 0 ≤ B_free Kd2 At Bt := by unfold B_free; linarith
  have hS : 0 < A_free Kd2 At Bt + calculate_complex_concentration Kd2 At Bt +
      B_free Kd2 At Bt := by
    unfold A_free B_free at *
    linarith
  have hac : 0 ≤ A_counts Kd2 At Bt := by
    unfold A_counts
    exact div_nonneg (by linarith) hS.le
  have habc : 0 ≤ AB_counts Kd2 At Bt := by
    unfold AB_counts
    exact div_nonneg (by linarith) hS.le
  have hbc : 0 ≤ B_counts Kd2 At Bt := by
    unfold B_counts
    exact div_nonneg (by linarith) hS.le
  refine ⟨?_, ?_, ?_, ?_, ?_, ?_, ?_⟩
  · rw [float_int_of_nonneg _ hmc]
    unfold monomer_counts
    congr 1
    ring
  · rw [float_int_of_nonneg _ hdc]
    unfold dimer_counts
    congr 1
    ring
  · rw [float_int_of_nonneg _ hmc, float_int_of_nonneg _ hdc]
    apply floor_pair_bound
    unfold monomer_counts dimer_counts
    field_simp
    ring
  · rw [float_int_of_nonneg _ hac]
    unfold A_counts
    congr 1
    ring
  · rw [float_int_of_nonneg _ habc]
    unfold AB_counts
    congr 1
    ring
  · rw [float_int_of_nonneg _ hbc]
    unfold B_counts
    congr 1
    ring
  · rw [float_int_of_nonneg _ hac, float_int_of_nonneg _ habc, float_int_of_nonneg _ hbc]
    apply floor_triple_bound
    unfold A_counts AB_counts B_counts
    field_simp
    ring

/-- Witness for C4 at `Kd = Ct = 8` (homodimer) and
`Kd = 1`, `At = 2`, `Bt = 3` (heterocomplex). -/
theorem count_allocator_correct_witness :
    (0:ℝ) < 8 ∧
    ((float_int (monomer_counts 8 8) =
      ⌊calculate_monomer_concentration 8 8 /
        (calculate_monomer_concentration 8 8 + dimer_conc 8 8) * 1800⌋) ∧
    (float_int (dimer_counts 8 8) =
      ⌊dimer_conc 8 8 /
        (calculate_monomer_concentration 8 8 + dimer_conc 8 8) * 1800⌋) ∧
    |float_int (monomer_counts 8 8) + float_int (dimer_counts 8 8) - 1800| ≤ 2 ∧
    (float_int (A_counts 1 2 3) =
      ⌊A_free 1 2 3 / (A_free 1 2 3 +
        calculate_complex_concentration 1 2 3 + B_free 1 2 3) * 3200⌋) ∧
    (float_int (AB_counts 1 2 3) =
      ⌊calculate_complex_concentration 1 2 3 / (A_free 1 2 3 +
        calculate_complex_concentration 1 2 3 + B_free 1 2 3) * 3200⌋) ∧
    (float_int (B_counts 1 2 3) =
      ⌊B_free 1 2 3 / (A_free 1 2 3 +
        calculate_complex_concentration 1 2 3 + B_free 1 2 3) * 3200⌋) ∧
    |float_int (A_counts 1 2 3) + float_int (AB_counts 1 2 3) +
      float_int (B_counts 1 2 3) - 3200| ≤ 3) :=
  ⟨by norm_num,
   count_allocator_correct 8 8 1 2 3 (by norm_num) (by norm_num) (by norm_num)
     (by norm_num) (by norm_num)⟩

/-- C5 counterexample: a negative requested count raises numpy's
`ValueError` instead of short-circuiting to an empty sample set — the
claim's "any negative count returns an empty sample set without raising"
is false at `count = -1`. -/
theorem noise_synthesizer_negative_count_raises :
    simulate_mass_photometry_counts 0 1 (-1) (fun _ => 0) = .error .valueError := by
  unfold simulate_mass_photometry_counts
  rw [if_pos (show (-1 : ℤ) < 0 by norm_num)]

/-- C5 amended: for a requested count of zero the synthesizer returns an
empty sample set; for `count = N > 0` it returns exactly `N` values; for
any negative count it raises numpy's `ValueError` (it does not
short-circuit to an empty sample set). -/
theorem noise_synthesizer_count_behavior (mean std : ℝ) (g : ℕ → ℝ) (n : ℤ)
    (h : 0 ≤ n) :
    (∃ l, simulate_mass_photometry_counts mean std n g = .ok l ∧
      (l.length : ℤ) = n ∧ (n = 0 → l = [])) ∧
    ∀ m : ℤ, m < 0 →
      simulate_mass_photometry_counts mean std m g = .error .valueError := by
  constructor
  · refine ⟨normal_samples mean std n.toNat g, simulate_ok mean std n g h, ?_, ?_⟩
    · have : (normal_samples mean std n.toNat g).length = n.toNat := by
        unfold normal_samples
        simp
      rw [this]
      exact_mod_cast Int.toNat_of_nonneg h
    · intro hn0
      subst hn0
      unfold normal_samples
      simp
  · intro m hm
    unfold simulate_mass_photometry_counts
    rw [if_pos hm]

/-- Witness for C5's amended theorem at `count = 3`. -/
theorem noise_synthesizer_count_behavior_witness :
    (0:ℤ) ≤ 3 ∧
    ((∃ l, simulate_mass_photometry_counts 0 1 3 (fun _ => 0) = .ok l ∧
      (l.length : ℤ) = 3 ∧ ((3:ℤ) = 0 → l = [])) ∧
    ∀ m : ℤ, m < 0 →
      simulate_mass_photometry_counts 0 1 m (fun _ => 0) = .error .valueError) :=
  ⟨by norm_num, noise_synthesizer_count_behavior 0 1 (fun _ => 0) 3 (by norm_num)⟩

/-- Everything the detection filter keeps is at or above the limit. -/
lemma detection_filter_mem (dl : ℝ) (l : List ℝ) (x : ℝ)
    (hx : x ∈ detection_filter dl l) : dl ≤ x := by
  unfold detection_filter at hx
  rw [List.mem_filter] at hx
  exact of_decide_eq_true hx.2

/-- The detection filter's output is a subsequence of its input. -/
lemma detection_filter_sublist (dl : ℝ) (l : List ℝ) :
    (detection_filter dl l).Sublist l :=
  List.filter_sublist l

/-- For positive inputs notebook 7's generator takes the success path:
all three asserts pass, all three draw sizes are nonnegative, and the
result is the shuffled concatenation of the per-species filtered
samples. -/
lemma generate7_ok (At Bt Kd mA mB dl : ℝ) (hKd : 0 < Kd) (hA : 0 < At) (hB : 0 < Bt)
    (gA gAB gB : ℕ → ℝ) (pick : ℕ → ℕ) :
    generate_mass_photometry_data_7 At Bt Kd mA mB dl gA gAB gB pick =
      .ok (shuffle pick 0
        (detection_filter dl (normal_samples mA (0.08 * mA)
            (float_int (A_counts Kd At Bt)).toNat gA) ++
         detection_filter dl (normal_samples mB (0.08 * mB)
            (float_int (B_counts Kd At Bt)).toNat gB) ++
         detection_filter dl (normal_samples (mA + mB) (0.08 * (mA + mB))
            (float_int (AB_counts Kd At Bt)).toNat gAB))) := by
  have hAB0 := complex_conc_nonneg Kd At Bt hKd hA hB
  have hABa := complex_conc_le_A Kd At Bt hKd hA hB
  have hABb := complex_conc_le_B Kd At Bt hKd hA hB
  simp only [generate_mass_photometry_data_7]
  unfold A_counts AB_counts B_counts A_free B_free
  set AB := calculate_complex_concentration Kd At Bt with hAB_def
  have h1 : np_isclose (At - AB + AB) At := by
    have e : At - AB + AB = At := by ring
    rw [e]
    exact np_isclose_refl At
  have h2 : np_isclose ((At - AB) / (At - AB + AB) + AB / At) 1 := by
    have e : At - AB + AB = At := by ring
    rw [e]
    have e2 : (At - AB) / At + AB / At = 1 := by field_simp
    rw [e2]
    exact np_isclose_refl 1
  have h3 : np_isclose ((Bt - AB) / Bt + AB / Bt) 1 := by
    have e2 : (Bt - AB) / Bt + AB / Bt = 1 := by field_simp
    rw [e2]
    exact np_isclose_refl 1
  have hS : 0 < At - AB + AB + (Bt - AB) := by linarith
  have hca : (0:ℝ) ≤ 3200 * (At - AB) / (At - AB + AB + (Bt - AB)) :=
    div_nonneg (by linarith) hS.le
  have hcab : (0:ℝ) ≤ 3200 * AB / (At - AB + AB + (Bt - AB)) :=
    div_nonneg (by linarith) hS.le
  have hcb : (0:ℝ) ≤ 3200 * (Bt - AB) / (At - AB + AB + (Bt - AB)) :=
    div_nonneg (by linarith) hS.le
  rw [if_pos h1, if_pos h2, if_pos h3,
    simulate_ok _ _ _ _ (float_int_nonneg _ hca),
    simulate_ok _ _ _ _ (float_int_nonneg _ hcab),
    simulate_ok _ _ _ _ (float_int_nonneg _ hcb)]
  rfl

/-- C6: the detection filter's output has no value strictly below the
detection limit and is an order-preserving subsequence of its input; in
the heterocomplex pipeline it is applied independently to each species
(A, B, AB) before concatenation; the homodimer pipeline applies no
detection filter (its pooled output is the shuffled concatenation of the
raw monomer and dimer samples). -/
theorem detection_filter_correct (dl : ℝ) (l : List ℝ)
    (At Bt Kd2 mA mB : ℝ) (hKd2 : 0 < Kd2) (hA : 0 < At) (hB : 0 < Bt)
    (Ct Kd mm : ℝ) (hCt : 0 < Ct) (hKd : 0 < Kd)
    (gA gAB gB gM gD : ℕ → ℝ) (pick pick2 : ℕ → ℕ) :
    (∀ x ∈ detection_filter dl l, ¬ x < dl) ∧
    (detection_filter dl l).Sublist l ∧
    generate_mass_photometry_data_7 At Bt Kd2 mA mB dl gA gAB gB pick =
      .ok (shuffle pick 0
        (detection_filter dl (normal_samples mA (0.08 * mA)
            (float_int (A_counts Kd2 At Bt)).toNat gA) ++
         detection_filter dl (normal_samples mB (0.08 * mB)
            (float_int (B_counts Kd2 At Bt)).toNat gB) ++
         detection_filter dl (normal_samples (mA + mB) (0.08 * (mA + mB))
            (float_int (AB_counts Kd2 At Bt)).toNat gAB))) ∧
    generate_mass_photometry_data_6 Ct Kd mm gM gD pick2 =
      .ok (shuffle pick2 0
        (normal_samples mm (0.16 * mm)
          (float_int (1800 * calculate_monomer_concentration Kd Ct /
            (calculate_monomer_concentration Kd Ct +
              (Ct - calculate_monomer_concentration Kd Ct) / 2))).toNat gM ++
         normal_samples (2 * mm) (0.16 * (2 * mm))
          (float_int (1800 * ((Ct - calculate_monomer_concentration Kd Ct) / 2) /
            (calculate_monomer_concentration Kd Ct +
              (Ct - calculate_monomer_concentration Kd Ct) / 2))).toNat gD)) :=
  ⟨fun x hx => not_lt.2 (detection_filter_mem dl l x hx),
   detection_filter_sublist dl l,
   generate7_ok At Bt Kd2 mA mB dl hKd2 hA hB gA gAB gB pick,
   generate6_ok Ct Kd mm hCt hKd gM gD pick2⟩

/-- Witness for C6 at detection limit 40, input `[50]`, heterocomplex
parameters `Kd = 1, At = 2, Bt = 3` and homodimer parameters
`Kd = Ct = 8`, with all-zero streams. -/
theorem detection_filter_correct_witness :
    (0:ℝ) < 1 ∧
    ((∀ x ∈ detection_filter 40 [50], ¬ x < 40) ∧
    (detection_filter 40 [50]).Sublist [50] ∧
    generate_mass_photometry_data_7 2 3 1 150 30 40
        (fun _ => 0) (fun _ => 0) (fun _ => 0) (fun _ => 0) =
      .ok (shuffle (fun _ => 0) 0
        (detection_filter 40 (normal_samples 150 (0.08 * 150)
            (float_int (A_counts 1 2 3)).toNat (fun _ => 0)) ++
         detection_filter 40 (normal_samples 30 (0.08 * 30)
            (float_int (B_counts 1 2 3)).toNat (fun _ => 0)) ++
         detection_filter 40 (normal_samples (150 + 30) (0.08 * (150 + 30))
            (float_int (AB_counts 1 2 3)).toNat (fun _ => 0)))) ∧
    generate_mass_photometry_data_6 8 8 80 (fun _ => 0) (fun _ => 0) (fun _ => 0) =
      .ok (shuffle (fun _ => 0) 0
        (normal_samples 80 (0.16 * 80)
          (float_int (1800 * calculate_monomer_concentration 8 8 /
            (calculate_monomer_concentration 8 8 +
              (8 - calculate_monomer_concentration 8 8) / 2))).toNat (fun _ => 0) ++
         normal_samples (2 * 80) (0.16 * (2 * 80))
          (float_int (1800 * ((8 - calculate_monomer_concentration 8 8) / 2) /
            (calculate_monomer_concentration 8 8 +
              (8 - calculate_monomer_concentration 8 8) / 2))).toNat (fun _ => 0)))) :=
  ⟨by norm_num,
   detection_filter_correct 40 [50] 2 3 1 150 30 (by norm_num) (by norm_num) (by norm_num)
     8 8 80 (by norm_num) (by norm_num)
     (fun _ => 0) (fun _ => 0) (fun _ => 0) (fun _ => 0) (fun _ => 0)
     (fun _ => 0) (fun _ => 0)⟩

/-- Mapping `Prod.fst` over a labelled condition list recovers the
nominal concentrations. -/
lemma enum_map_pair_fst {β : Type} (l : List ℚ) (f : ℕ × ℚ → β) :
    ((l.enum.map fun p => (p.2, f p)).map Prod.fst) = l := by
  rw [List.map_map]
  have h : (Prod.fst ∘ fun p : ℕ × ℚ => (p.2, f p)) = Prod.snd := rfl
  rw [h, List.enum_eq_enumFrom, List.enumFrom_map_snd]

/-- Mapping `Prod.snd` over a labelled condition list recovers the
per-condition payloads. -/
lemma enum_map_pair_snd {β : Type} (l : List ℚ) (f : ℕ × ℚ → β) :
    ((l.enum.map fun p => (p.2, f p)).map Prod.snd) = l.enum.map f := by
  rw [List.map_map]
  rfl

/-- C7: the emitted label of every condition is exactly the nominal
(unperturbed) concentration, for any value of the random perturbation
(the perturbation streams are universally quantified and absent from the
label equation), while the equilibrium computation receives the perturbed
concentration `nominal * 1e-9 * error_factor`. -/
theorem label_noninterference
    (Kdim mm : ℝ) (noms : List ℚ) (e : ℕ → ℝ) (gM gD : ℕ → ℕ → ℝ)
    (pick : ℕ → ℕ → ℕ)
    (mA mB Kd A0 : ℝ) (noms7 : List ℚ) (dl : ℝ) (e7 : ℕ → ℝ) (eA : ℝ)
    (gA gAB gB : ℕ → ℕ → ℝ) (pick7 : ℕ → ℕ → ℕ) :
    (create_notebook_6_files Kdim mm noms e gM gD pick).map Prod.fst = noms ∧
    (create_notebook_7_files mA mB Kd A0 noms7 dl e7 eA gA gAB gB pick7).map
      Prod.fst = noms7 ∧
    (create_notebook_6_files Kdim mm noms e gM gD pick).map Prod.snd =
      noms.enum.map (fun p => generate_mass_photometry_data_6
        ((p.2 : ℝ) * 1e-9 * e p.1) Kdim mm (gM p.1) (gD p.1) (pick p.1)) ∧
    (create_notebook_7_files mA mB Kd A0 noms7 dl e7 eA gA gAB gB pick7).map
      Prod.snd =
      noms7.enum.map (fun p => generate_mass_photometry_data_7
        (A0 * eA) ((p.2 : ℝ) * 1e-9 * e7 p.1) Kd mA mB dl
        (gA p.1) (gAB p.1) (gB p.1) (pick7 p.1)) := by
  refine ⟨?_, ?_, ?_, ?_⟩
  · simp only [create_notebook_6_files]
    exact enum_map_pair_fst noms _
  · simp only [create_notebook_7_files]
    exact enum_map_pair_fst noms7 _
  · simp only [create_notebook_6_files]
    exact enum_map_pair_snd noms _
  · simp only [create_notebook_7_files]
    exact enum_map_pair_snd noms7 _

/-- C8: the condition drivers are deterministic functions of the
pseudo-random draws and the parameters — two runs fed the same
seed-derived streams produce identical output for every condition, the
same sample values in the same order. -/
theorem determinism_by_seed
    (Kdim mm : ℝ) (noms : List ℚ) (e e' : ℕ → ℝ) (gM gM' gD gD' : ℕ → ℕ → ℝ)
    (pick pick' : ℕ → ℕ → ℕ)
    (he : e = e') (hgM : gM = gM') (hgD : gD = gD') (hp : pick = pick')
    (mA mB Kd A0 : ℝ) (noms7 : List ℚ) (dl : ℝ) (e7 e7' : ℕ → ℝ) (eA eA' : ℝ)
    (gA gA' gAB gAB' gB gB' : ℕ → ℕ → ℝ) (pick7 pick7' : ℕ → ℕ → ℕ)
    (h7 : e7 = e7') (hA : eA = eA') (hgA : gA = gA') (hgAB : gAB = gAB')
    (hgB : gB = gB') (hp7 : pick7 = pick7') :
    create_notebook_6_files Kdim mm noms e gM gD pick =
      create_notebook_6_files Kdim mm noms e' gM' gD' pick' ∧
    create_notebook_7_files mA mB Kd A0 noms7 dl e7 eA gA gAB gB pick7 =
      create_notebook_7_files mA mB Kd A0 noms7 dl e7' eA' gA' gAB' gB' pick7' := by
  subst he hgM hgD hp h7 hA hgA hgAB hgB hp7
  exact ⟨rfl, rfl⟩

/-- Witness for C8 with concrete matching streams. -/
theorem determinism_by_seed_witness :
    create_notebook_6_files 8 80 [1, 2] (fun _ => 1) (fun _ _ => 0) (fun _ _ => 0)
        (fun _ _ => 0) =
      create_notebook_6_files 8 80 [1, 2] (fun _ => 1) (fun _ _ => 0) (fun _ _ => 0)
        (fun _ _ => 0) ∧
    create_notebook_7_files 150 30 1 5 [1, 2] 40 (fun _ => 1) 1 (fun _ _ => 0)
        (fun _ _ => 0) (fun _ _ => 0) (fun _ _ => 0) =
      create_notebook_7_files 150 30 1 5 [1, 2] 40 (fun _ => 1) 1 (fun _ _ => 0)
        (fun _ _ => 0) (fun _ _ => 0) (fun _ _ => 0) :=
  determinism_by_seed 8 80 [1, 2] (fun _ => 1) (fun _ => 1) (fun _ _ => 0)
    (fun _ _ => 0) (fun _ _ => 0) (fun _ _ => 0) (fun _ _ => 0) (fun _ _ => 0)
    rfl rfl rfl rfl
    150 30 1 5 [1, 2] 40 (fun _ => 1) (fun _ => 1) 1 1 (fun _ _ => 0) (fun _ _ => 0)
    (fun _ _ => 0) (fun _ _ => 0) (fun _ _ => 0) (fun _ _ => 0) (fun _ _ => 0)
    (fun _ _ => 0) rfl rfl rfl rfl rfl rfl

/-- C9: for both pipelines the shuffled pooled output is a permutation of
the concatenation of the per-species (post-filter, where applicable)
sample lists — shuffling changes only the order. -/
theorem shuffle_preserves_multiset
    (Ct Kd mm : ℝ) (hCt : 0 < Ct) (hKd : 0 < Kd)
    (At Bt Kd2 mA mB dl : ℝ) (hKd2 : 0 < Kd2) (hA : 0 < At) (hB : 0 < Bt)
    (gM gD gA gAB gB : ℕ → ℝ) (pick pick2 : ℕ → ℕ) :
    (∃ l, generate_mass_photometry_data_6 Ct Kd mm gM gD pick = .ok l ∧
      List.Perm l
        (normal_samples mm (0.16 * mm)
          (float_int (1800 * calculate_monomer_concentration Kd Ct /
            (calculate_monomer_concentration Kd Ct +
              (Ct - calculate_monomer_concentration Kd Ct) / 2))).toNat gM ++
         normal_samples (2 * mm) (0.16 * (2 * mm))
          (float_int (1800 * ((Ct - calculate_monomer_concentration Kd Ct) / 2) /
            (calculate_monomer_concentration Kd Ct +
              (Ct - calculate_monomer_concentration Kd Ct) / 2))).toNat gD)) ∧
    (∃ l, generate_mass_photometry_data_7 At Bt Kd2 mA mB dl gA gAB gB pick2 =
        .ok l ∧
      List.Perm l
        (detection_filter dl (normal_samples mA (0.08 * mA)
            (float_int (A_counts Kd2 At Bt)).toNat gA) ++
         detection_filter dl (normal_samples mB (0.08 * mB)
            (float_int (B_counts Kd2 At Bt)).toNat gB) ++
         detection_filter dl (normal_samples (mA + mB) (0.08 * (mA + mB))
            (float_int (AB_counts Kd2 At Bt)).toNat gAB))) :=
  ⟨⟨_, generate6_ok Ct Kd mm hCt hKd gM gD pick, shuffle_perm pick 0 _⟩,
   ⟨_, generate7_ok At Bt Kd2 mA mB dl hKd2 hA hB gA gAB gB pick2, shuffle_perm pick2 0 _⟩⟩

/-- Witness for C9 at `Ct = Kd = 8`, `Kd2 = 1, At = 2, Bt = 3` with
all-zero streams. -/
theorem shuffle_preserves_multiset_witness :
    (0:ℝ) < 8 ∧
    ((∃ l, generate_mass_photometry_data_6 8 8 80 (fun _ => 0) (fun _ => 0)
        (fun _ => 0) = .ok l ∧
      List.Perm l
        (normal_samples 80 (0.16 * 80)
          (float_int (1800 * calculate_monomer_concentration 8 8 /
            (calculate_monomer_concentration 8 8 +
              (8 - calculate_monomer_concentration 8 8) / 2))).toNat (fun _ => 0) ++
         normal_samples (2 * 80) (0.16 * (2 * 80))
          (float_int (1800 * ((8 - calculate_monomer_concentration 8 8) / 2) /
            (calculate_monomer_concentration 8 8 +
              (8 - calculate_monomer_concentration 8 8) / 2))).toNat (fun _ => 0))) ∧
    (∃ l, generate_mass_photometry_data_7 2 3 1 150 30 40 (fun _ => 0) (fun _ => 0)
        (fun _ => 0) (fun _ => 0) = .ok l ∧
      List.Perm l
        (detection_filter 40 (normal_samples 150 (0.08 * 150)
            (float_int (A_counts 1 2 3)).toNat (fun _ => 0)) ++
         detection_filter 40 (normal_samples 30 (0.08 * 30)
            (float_int (B_counts 1 2 3)).toNat (fun _ => 0)) ++
         detection_filter 40 (normal_samples (150 + 30) (0.08 * (150 + 30))
            (float_int (AB_counts 1 2 3)).toNat (fun _ => 0))))) :=
  ⟨by norm_num,
   shuffle_preserves_multiset 8 8 80 (by norm_num) (by norm_num)
     2 3 1 150 30 40 (by norm_num) (by norm_num) (by norm_num)
     (fun _ => 0) (fun _ => 0) (fun _ => 0) (fun _ => 0) (fun _ => 0)
     (fun _ => 0) (fun _ => 0)⟩

/-- The notebook 7 driver emits one condition per nominal B
concentration. -/
lemma create7_length (mA mB Kd A0 : ℝ) (noms7 : List ℚ) (dl : ℝ) (e7 : ℕ → ℝ)
    (eA : ℝ) (gA gAB gB : ℕ → ℕ → ℝ) (pick7 : ℕ → ℕ → ℕ) :
    (create_notebook_7_files mA mB Kd A0 noms7 dl e7 eA gA gAB gB pick7).length =
      noms7.length := by
  simp [create_notebook_7_files, List.enum_eq_enumFrom]

/-- C10: every condition of a notebook 7 run uses the identical perturbed
A concentration `A0 * error_factor_A` — the single error factor drawn
before the condition loop — while each condition gets its own perturbed B
concentration. -/
theorem shared_perturbed_A_concentration
    (mA mB Kd A0 : ℝ) (noms7 : List ℚ) (dl : ℝ) (e7 : ℕ → ℝ) (eA : ℝ)
    (gA gAB gB : ℕ → ℕ → ℝ) (pick7 : ℕ → ℕ → ℕ) (i : ℕ) (hi : i < noms7.length) :
    (create_notebook_7_files mA mB Kd A0 noms7 dl e7 eA gA gAB gB pick7).get
      ⟨i, by rw [create7_length]; exact hi⟩ =
      (noms7.get ⟨i, hi⟩,
       generate_mass_photometry_data_7 (A0 * eA)
         ((noms7.get ⟨i, hi⟩ : ℝ) * 1e-9 * e7 i) Kd mA mB dl
         (gA i) (gAB i) (gB i) (pick7 i)) := by
  simp [create_notebook_7_files, List.get_eq_getElem, List.enum_eq_enumFrom]

/-- Witness for C10 at two nominal B concentrations, condition index 0. -/
theorem shared_perturbed_A_concentration_witness :
    (0:ℕ) < ([1, 2] : List ℚ).length ∧
    (create_notebook_7_files 150 30 1 5 [1, 2] 40 (fun _ => 1) 2 (fun _ _ => 0)
        (fun _ _ => 0) (fun _ _ => 0) (fun _ _ => 0)).get
      ⟨0, by rw [create7_length]; norm_num⟩ =
      (([1, 2] : List ℚ).get ⟨0, by norm_num⟩,
       generate_mass_photometry_data_7 (5 * 2)
         (((([1, 2] : List ℚ).get ⟨0, by norm_num⟩ : ℚ) : ℝ) * 1e-9 * 1) 1 150 30 40
         (fun _ => 0) (fun _ => 0) (fun _ => 0) (fun _ => 0)) :=
  ⟨by norm_num,
   shared_perturbed_A_concentration 150 30 1 5 [1, 2] 40 (fun _ => 1) 2
     (fun _ _ => 0) (fun _ _ => 0) (fun _ _ => 0) (fun _ _ => 0) 0 (by norm_num)⟩

end PyPhotoMol
